import Mathlib

/-!
Shallow embedding of the zdns resolution engine pieces needed to check the
specification claims: the Resolver constructor and its configuration
validation (src/pkg/zdns/resolver.go), the lookup dispatch entry points
ExternalLookup and IterativeLookup with their random server selection
helpers, and the MX lookup consumer module
(src/src/modules/mxlookup/mx_lookup.go). Go slices that matter for
aliasing are modelled as references into an explicit store; log.Fatal is
modelled as a none result (process abort, no value returned); network
effects (the throwaway dial, ListenUDP, the OS resolver file) are supplied
by an environment record.
-/

namespace ZDNS

/-- Transport mode for DNS queries; an integer-typed enum in the source. -/
abbrev TransportMode := Int

def UDPOrTCP : TransportMode := 0

def UDPOnly : TransportMode := 1

def TCPOnly : TransportMode := 2

/-- Modelled from the spec: transportMode.isValid is not under src/. The spec
says the transport mode must be one of UDP-only, TCP-only, or
UDP-with-TCP-fallback; any other value is a configuration error. -/
def TransportMode.isValid (tm : TransportMode) : Bool × String :=
  if tm = UDPOrTCP ∨ tm = UDPOnly ∨ tm = TCPOnly then (true, "")
  else (false, "invalid transport mode")

/-- IP version mode; an integer-typed enum in the source. -/
abbrev IPVersionMode := Int

def IPv4Only : IPVersionMode := 0

def IPv6Only : IPVersionMode := 1

def IPv4OrIPv6 : IPVersionMode := 2

/-- Modelled from the spec: IPVersionMode.IsValid is not under src/. The spec
says the IP version mode must be one of v4-only, v6-only, or both; any other
value is a configuration error. -/
def IPVersionMode.IsValid (m : IPVersionMode) : Bool × String :=
  if m = IPv4Only ∨ m = IPv6Only ∨ m = IPv4OrIPv6 then (true, "")
  else (false, "invalid IP version mode")

/-- Answer cache, reduced to the bookkeeping InitResolver manipulates: the
size it was initialized with. -/
structure Cache where
  size : Int
deriving DecidableEq, Repr

/-- Cache.Init sets up a cache of the given size. -/
def Cache.init (n : Int) : Cache := ⟨n⟩

def defaultCacheSize : Int := 10000

/-- Reference to a Go string slice: an index into the slice store. Two
slices with different ids never alias. -/
structure GoSlice where
  id : Nat
deriving DecidableEq, Repr

/-- Slice store: contents of every allocated string slice, indexed by id. -/
abbrev Store := List (List String)

def Store.read (s : Store) (sl : GoSlice) : List String := s.getD sl.id []

def Store.alloc (s : Store) (contents : List String) : Store × GoSlice :=
  (s ++ [contents], ⟨s.length⟩)

def Store.write (s : Store) (sl : GoSlice) (contents : List String) : Store :=
  s.set sl.id contents

/-- ResolverConfig from src/pkg/zdns/resolver.go, restricted to the fields
the engine reads. IP addresses are modelled as strings. -/
structure ResolverConfig where
  cache : Option Cache
  cacheSize : Int
  localAddrs : List String
  retries : Int
  transportMode : TransportMode
  ipVersionMode : IPVersionMode
  shouldRecycleSockets : Bool
  iterativeTimeout : Int
  timeout : Int
  maxDepth : Int
  externalNameServers : GoSlice
  dnsSecEnabled : Bool
  checkingDisabledBit : Bool
deriving DecidableEq, Repr

/-- ResolverConfig.isValid: transport mode valid, IP version mode valid, and
not both an explicit Cache and a nonzero CacheSize. -/
def ResolverConfig.isValid (rc : ResolverConfig) : Bool × String :=
  let tv := rc.transportMode.isValid
  if !tv.1 then (false, tv.2)
  else
    let iv := rc.ipVersionMode.IsValid
    if !iv.1 then (false, iv.2)
    else if rc.cache.isSome ∧ rc.cacheSize ≠ 0 then
      (false, "cannot use both cache and cacheSize")
    else (true, "")

/-- Modelled from the spec: the RootServers constant (the hardcoded root
hints slice) is not under src/; the spec calls it the fixed set of 13 root
name server addresses used to start iterative resolution. -/
def RootServers : List String :=
  ["198.41.0.4:53", "199.9.14.201:53", "192.33.4.12:53", "199.7.91.13:53",
   "192.203.230.10:53", "192.5.5.241:53", "192.112.36.4:53", "198.97.190.53:53",
   "192.36.148.17:53", "192.58.128.30:53", "193.0.14.129:53", "199.7.83.42:53",
   "202.12.27.33:53"]

/-- Environment for the effectful steps of InitResolver: the local IP
learned from the throwaway dial to 8.8.8.8:53 (none when the dial fails),
whether ListenUDP on the local address succeeds, the name servers obtained
from the OS resolver configuration (after the hardcoded fallback, so always
a list), and the rand.Intn oracle. -/
structure Env where
  dialLocalIP : Option String
  listenUDPOk : Bool
  osNameServers : List String
  randIntn : Nat → Nat

/-- One dns.Client as configured by InitResolver. -/
structure DNSClient where
  net : String
  timeout : Int
  dialerTimeout : Int
  dialerLocalAddr : String
deriving DecidableEq, Repr

/-- Resolver from src/pkg/zdns/resolver.go, restricted to the fields the
claims read. The recycled connection is recorded by the local address it is
bound to. -/
structure Resolver where
  cache : Cache
  localAddr : String
  udpClient : Option DNSClient
  tcpClient : Option DNSClient
  conn : Option String
  retries : Int
  transportMode : TransportMode
  ipVersionMode : IPVersionMode
  shouldRecycleSockets : Bool
  iterativeTimeout : Int
  timeout : Int
  maxDepth : Int
  externalNameServers : GoSlice
  rootNameServers : List String
  dnsSecEnabled : Bool
  checkingDisabledBit : Bool
deriving DecidableEq, Repr

/-- List copy as performed by make plus the copy builtin: a fresh list with
the same elements. -/
def copyStrings : List String → List String
  | [] => []
  | x :: xs => x :: copyStrings xs

/-- InitResolver from src/pkg/zdns/resolver.go. The struct literal that
builds the Resolver does not copy config.LocalAddrs into localAddr, so
localAddr starts empty; the source then tests len(r.localAddr) == 0 before
choosing between the throwaway-dial branch and the
pick-a-random-configured-address branch, which is embedded verbatim. -/
def InitResolver (config : ResolverConfig) (s : Store) (env : Env) :
    Except String (Resolver × Store) :=
  let v := config.isValid
  if !v.1 then .error ("invalid resolver config: " ++ v.2)
  else
    let c : Cache :=
      if config.cacheSize ≠ 0 then Cache.init config.cacheSize
      else match config.cache with
        | some cc => cc
        | none => Cache.init defaultCacheSize
    let localAddr0 : String := ""
    let localAddrStep : Except String String :=
      if localAddr0.length = 0 then
        match env.dialLocalIP with
        | none => .error "unable to find default IP address to open socket"
        | some ip => .ok ip
      else
        .ok (config.localAddrs.getD (env.randIntn config.localAddrs.length) "")
    match localAddrStep with
    | .error e => .error e
    | .ok localAddr =>
      if config.shouldRecycleSockets ∧ !env.listenUDPOk then
        .error "unable to create UDP connection"
      else
        let conn : Option String :=
          if config.shouldRecycleSockets then some localAddr else none
        let usingUDP := config.transportMode = UDPOrTCP ∨ config.transportMode = UDPOnly
        let udpClient : Option DNSClient :=
          if usingUDP then
            some ⟨"", config.timeout, config.timeout, localAddr⟩
          else none
        let usingTCP := config.transportMode = UDPOrTCP ∨ config.transportMode = TCPOnly
        let tcpClient : Option DNSClient :=
          if usingTCP then
            some ⟨"tcp", config.timeout, config.timeout, localAddr⟩
          else none
        let alloc1 := s.alloc (copyStrings (s.read config.externalNameServers))
        let s1 := alloc1.1
        let extSlice := alloc1.2
        let afterDefaulting :=
          if (s1.read extSlice).length = 0 then s1.alloc env.osNameServers
          else (s1, extSlice)
        .ok ({ cache := c
               localAddr := localAddr
               udpClient := udpClient
               tcpClient := tcpClient
               conn := conn
               retries := config.retries
               transportMode := config.transportMode
               ipVersionMode := config.ipVersionMode
               shouldRecycleSockets := config.shouldRecycleSockets
               iterativeTimeout := config.iterativeTimeout
               timeout := config.timeout
               maxDepth := config.maxDepth
               externalNameServers := afterDefaulting.2
               rootNameServers := RootServers
               dnsSecEnabled := config.dnsSecEnabled
               checkingDisabledBit := config.checkingDisabledBit }, afterDefaulting.1)

/-- Question triple passed to lookups; the source field names Type and
Class are reserved words here, hence qtype and qclass. -/
structure Question where
  Name : String
  qtype : Nat
  qclass : Nat
deriving DecidableEq, Repr

/-- Arguments a lookup entry point hands to
lookupClient.DoSingleDstServerLookup: the question, the destination server,
and the isIterative flag. -/
structure Dispatch where
  question : Question
  dstServer : String
  isIterative : Bool
deriving DecidableEq, Repr

/-- Resolver.randomExternalNameServer; none models the log.Fatal abort on an
empty server list. -/
def Resolver.randomExternalNameServer (r : Resolver) (s : Store)
    (randIntn : Nat → Nat) : Option String :=
  let servers := s.read r.externalNameServers
  if servers.length = 0 then none
  else some (servers.getD (randIntn servers.length) "")

/-- Resolver.randomRootNameServer; none models the log.Fatal abort on an
empty root server list. -/
def Resolver.randomRootNameServer (r : Resolver) (randIntn : Nat → Nat) :
    Option String :=
  if r.rootNameServers.length = 0 then none
  else some (r.rootNameServers.getD (randIntn r.rootNameServers.length) "")

/-- Resolver.ExternalLookup: an empty dstServer is replaced by a random
external name server, then the lookup is dispatched non-iteratively. The
result records the DoSingleDstServerLookup call made (none when the random
selection aborted fatally) and the store, which the source body never
writes. -/
def Resolver.ExternalLookup (r : Resolver) (s : Store) (randIntn : Nat → Nat)
    (q : Question) (dstServer : String) : Option Dispatch × Store :=
  if dstServer = "" then
    match r.randomExternalNameServer s randIntn with
    | none => (none, s)
    | some srv => (some ⟨q, srv, false⟩, s)
  else (some ⟨q, dstServer, false⟩, s)

/-- Resolver.IterativeLookup: dispatches to a random root name server with
the iterative flag set. -/
def Resolver.IterativeLookup (r : Resolver) (s : Store) (randIntn : Nat → Nat)
    (q : Question) : Option Dispatch × Store :=
  match r.randomRootNameServer randIntn with
  | none => (none, s)
  | some srv => (some ⟨q, srv, true⟩, s)

/-- Resolver.Close closes the recycled connection; it assigns no Resolver
field and writes no slice. -/
def Resolver.Close (r : Resolver) (s : Store) : Resolver × Store := (r, s)

/-- Status of a resolution attempt (zdns.Status). -/
inductive Status
  | noError
  | nxdomain
  | serverFailure
  | timeout
  | blacklisted
  | iterationLimitExceeded
  | malformedResponse
  | networkError
  | noAnswer
  | notImplemented
deriving DecidableEq, Repr

/-- Trace of wire queries, each step kept opaque as a label. -/
abbrev Trace := List String

/-- Address pair cached per exchange name by the MX module. -/
structure CachedAddresses where
  IPv4Addresses : List String
  IPv6Addresses : List String
deriving DecidableEq, Repr

/-- Modelled from the spec: the cachehash package is not under src/. The
spec requires consumers to keep a bounded name-to-result cache keyed by
resolved name; this models a size-bounded least-recently-inserted-out map:
Get is a pure association lookup, Upsert replaces any binding for the name,
puts the fresh binding in front, and truncates to capacity. -/
structure CacheHash where
  capacity : Int
  entries : List (String × CachedAddresses)
deriving DecidableEq, Repr

/-- CacheHash.Init creates an empty cache of the given capacity. -/
def CacheHash.Init (n : Int) : CacheHash := ⟨n, []⟩

def CacheHash.Get (ch : CacheHash) (name : String) : Option CachedAddresses :=
  ch.entries.lookup name

def CacheHash.Upsert (ch : CacheHash) (name : String) (v : CachedAddresses) :
    CacheHash :=
  ⟨ch.capacity,
   ((name, v) :: ch.entries.filter (fun p => p.1 != name)).take ch.capacity.toNat⟩

/-- Result of a targeted A/AAAA lookup (the IPv4/IPv6 address fields of the
IPResult that DoTargetedLookup produces). -/
structure IPResult where
  IPv4Addresses : List String
  IPv6Addresses : List String
deriving DecidableEq, Repr

/-- Response of one Resolver.DoTargetedLookup call; DoTargetedLookup itself
is not under src/, so the MX module receives its responses as an oracle from
exchange name to this record. -/
structure TargetedResponse where
  result : Option IPResult
  trace : Trace
  status : Status
  err : Option String

/-- One answer of the primary MX query: either a PrefAnswer (preference and
exchange name, the type assertion succeeds) or any other answer shape. -/
inductive MXAnswer
  | prefAnswer (ttl : Nat) (typ : String) (cls : String) (answer : String)
      (preference : Nat)
  | otherAnswer
deriving DecidableEq, Repr

/-- Response of the primary MX query (IterativeLookup or ExternalLookup
according to the module's IsIterative flag), received as an oracle input. -/
structure PrimaryResponse where
  answers : List MXAnswer
  trace : Trace
  status : Status
  err : Option String

/-- MXRecord emitted by the module; typ and cls stand for the source fields
Type and Class. -/
structure MXRecord where
  Name : String
  typ : String
  cls : String
  Preference : Nat
  IPv4Addresses : List String
  IPv6Addresses : List String
  TTL : Nat
deriving DecidableEq, Repr

structure MXResult where
  Servers : List MXRecord
deriving DecidableEq, Repr

/-- MXLookupModule state: the two lookup flags, the cache size option, the
name-to-address cache, and the IsIterative flag inherited from
BasicLookupModule. -/
structure MXLookupModule where
  IPv4Lookup : Bool
  IPv6Lookup : Bool
  MXCacheSize : Int
  cacheHash : CacheHash
  IsIterative : Bool
deriving DecidableEq, Repr

/-- MXLookupModule.Init; none models the log.Fatal abort when neither
lookup flag is set or when MXCacheSize is not positive. -/
def MXLookupModule.Init (m : MXLookupModule) : Option MXLookupModule :=
  if !m.IPv4Lookup && !m.IPv6Lookup then none
  else if m.MXCacheSize ≤ 0 then none
  else some { m with cacheHash := CacheHash.Init m.MXCacheSize }

/-- MXLookupModule.CLIInit: defaults IPv4Lookup to true when neither flag
is set, runs Init (none models its log.Fatal abort), then runs
BasicLookupModule.CLIInit, whose outcome — not under src/ — is supplied as
an optional error. -/
def MXLookupModule.CLIInit (m : MXLookupModule)
    (basicCLIInitErr : Option String) : Option (Except String MXLookupModule) :=
  let m1 :=
    if !m.IPv4Lookup && !m.IPv6Lookup then { m with IPv4Lookup := true } else m
  match m1.Init with
  | none => none
  | some m2 =>
    match basicCLIInitErr with
    | some e => some (Except.error ("failed to initialize BasicLookupModule: " ++ e))
    | none => some (Except.ok m2)

/-- Output of lookupIPs: the addresses, the secondary trace, the updated
module, and the list of exchange names for which a DoTargetedLookup call
was actually issued (instrumentation recording the calls the source body
makes into the Resolver). -/
structure LookupIPsOut where
  addrs : CachedAddresses
  trace : Trace
  mod : MXLookupModule
  calls : List String
deriving Repr

/-- MXLookupModule.lookupIPs: on a cache hit return the cached addresses
with an empty trace and no Resolver call; on a miss issue one targeted
lookup, keep its addresses only when the status is NoError and the result
non-nil, and upsert the outcome into the cache. -/
def MXLookupModule.lookupIPs (m : MXLookupModule)
    (targeted : String → TargetedResponse) (name : String) : LookupIPsOut :=
  match m.cacheHash.Get name with
  | some res => ⟨res, [], m, []⟩
  | none =>
    let resp := targeted name
    let retv : CachedAddresses :=
      if resp.status = Status.noError then
        match resp.result with
        | some result => ⟨result.IPv4Addresses, result.IPv6Addresses⟩
        | none => ⟨[], []⟩
      else ⟨[], []⟩
    ⟨retv, resp.trace, { m with cacheHash := m.cacheHash.Upsert name retv }, [name]⟩

/-- strings.TrimSuffix of a trailing dot from an exchange name: remove one
trailing dot when present (expressed on the character list so that it
evaluates by reduction). -/
def trimSuffixDot (s : String) : String :=
  if s.data.getLast? = some ('.') then String.mk s.data.dropLast else s

/-- Output of the answer-processing loop of MXLookupModule.Lookup. -/
structure ProcessOut where
  records : List MXRecord
  trace : Trace
  mod : MXLookupModule
  calls : List String
deriving Repr

/-- Loop body of MXLookupModule.Lookup over res.Answers: each PrefAnswer
contributes one MXRecord whose addresses come from lookupIPs on the trimmed
exchange name, and the secondary traces are appended in iteration order. -/
def processAnswers (targeted : String → TargetedResponse) :
    MXLookupModule → List MXAnswer → ProcessOut
  | m, [] => ⟨[], [], m, []⟩
  | m, MXAnswer.otherAnswer :: rest => processAnswers targeted m rest
  | m, MXAnswer.prefAnswer ttl typ cls answer preference :: rest =>
    let lookupName := trimSuffixDot answer
    let out := m.lookupIPs targeted lookupName
    let record : MXRecord :=
      ⟨lookupName, typ, cls, preference, out.addrs.IPv4Addresses,
       out.addrs.IPv6Addresses, ttl⟩
    let tail := processAnswers targeted out.mod rest
    ⟨record :: tail.records, out.trace ++ tail.trace, tail.mod,
     out.calls ++ tail.calls⟩

/-- Output of MXLookupModule.Lookup, with the same instrumentation of the
targeted calls issued. -/
structure MXLookupOut where
  result : Option MXResult
  trace : Trace
  status : Status
  err : Option String
  mod : MXLookupModule
  calls : List String
deriving Repr

/-- MXLookupModule.Lookup: a non-success primary status or a primary error
is returned as-is with a nil result; otherwise every PrefAnswer is turned
into an MXRecord via lookupIPs, the secondary traces are appended after the
primary trace in order, and the overall status is NoError. -/
def MXLookupModule.Lookup (m : MXLookupModule) (primary : PrimaryResponse)
    (targeted : String → TargetedResponse) : MXLookupOut :=
  if primary.status ≠ Status.noError ∨ primary.err ≠ none then
    ⟨none, primary.trace, primary.status, primary.err, m, []⟩
  else
    let p := processAnswers targeted m primary.answers
    ⟨some ⟨p.records⟩, primary.trace ++ p.trace, Status.noError, none, p.mod,
     p.calls⟩

/-! Concrete fixtures used by witnesses and counterexamples. -/

def sampleQuestion : Question := ⟨"example.com", 15, 1⟩

def sampleStore : Store := [["1.2.3.4:53", "5.6.7.8:53"]]

def sampleResolver : Resolver :=
  { cache := ⟨10000⟩
    localAddr := "192.0.2.1"
    udpClient := none
    tcpClient := none
    conn := none
    retries := 1
    transportMode := UDPOrTCP
    ipVersionMode := IPv4OrIPv6
    shouldRecycleSockets := false
    iterativeTimeout := 4
    timeout := 15
    maxDepth := 10
    externalNameServers := ⟨0⟩
    rootNameServers := RootServers
    dnsSecEnabled := false
    checkingDisabledBit := false }

/-- Resolver whose external slice reads as empty and whose root list is
empty, for the fatal-abort witnesses. -/
def emptyResolver : Resolver :=
  { sampleResolver with externalNameServers := ⟨1⟩, rootNameServers := [] }

/-- Valid configuration with no caller-supplied local address. -/
def sampleConfig : ResolverConfig :=
  { cache := none
    cacheSize := 0
    localAddrs := []
    retries := 1
    transportMode := UDPOrTCP
    ipVersionMode := IPv4OrIPv6
    shouldRecycleSockets := false
    iterativeTimeout := 4
    timeout := 15
    maxDepth := 10
    externalNameServers := ⟨0⟩
    dnsSecEnabled := false
    checkingDisabledBit := false }

def sampleEnv : Env := ⟨some "192.0.2.9", true, ["203.0.113.1:53"], fun _ => 0⟩

/-- Valid configuration whose environment dial fails. -/
def c1Config : ResolverConfig := { sampleConfig with shouldRecycleSockets := true }

def c1Env : Env := ⟨none, true, [], fun _ => 0⟩

/-- Configuration supplying a caller-chosen local address. -/
def c4Config : ResolverConfig := { sampleConfig with localAddrs := ["10.9.8.7"] }

def c4Env : Env := ⟨some "192.0.2.55", true, ["203.0.113.1:53"], fun _ => 0⟩

/-- Resolver that InitResolver produces from sampleConfig, sampleStore and
sampleEnv. -/
def builtResolver : Resolver :=
  { cache := ⟨10000⟩
    localAddr := "192.0.2.9"
    udpClient := some ⟨"", 15, 15, "192.0.2.9"⟩
    tcpClient := some ⟨"tcp", 15, 15, "192.0.2.9"⟩
    conn := none
    retries := 1
    transportMode := UDPOrTCP
    ipVersionMode := IPv4OrIPv6
    shouldRecycleSockets := false
    iterativeTimeout := 4
    timeout := 15
    maxDepth := 10
    externalNameServers := ⟨1⟩
    rootNameServers := RootServers
    dnsSecEnabled := false
    checkingDisabledBit := false }

/-- Store that InitResolver produces from sampleConfig, sampleStore and
sampleEnv: the original slice plus the fresh copy. -/
def builtStore : Store :=
  [["1.2.3.4:53", "5.6.7.8:53"], ["1.2.3.4:53", "5.6.7.8:53"]]

/-- MX module fixture with an empty cache of capacity 1000. -/
def mxModule : MXLookupModule := ⟨true, false, 1000, CacheHash.Init 1000, false⟩

/-- Targeted-lookup oracle that always fails with ServerFailure. -/
def failTargeted : String → TargetedResponse :=
  fun _ => ⟨none, ["sec-step-fail"], Status.serverFailure, none⟩

/-- Targeted-lookup oracle that always succeeds with one IPv4 address. -/
def okTargeted : String → TargetedResponse :=
  fun _ => ⟨some ⟨["198.51.100.5"], []⟩, ["sec-step-ok"], Status.noError, none⟩

/-- Successful primary MX response with a single exchange. -/
def okPrimary : PrimaryResponse :=
  ⟨[MXAnswer.prefAnswer 300 "MX" "IN" "mail.example.com." 10], ["prim-step"],
   Status.noError, none⟩

/-- Failing primary MX response. -/
def badPrimary : PrimaryResponse :=
  ⟨[], ["prim-step"], Status.serverFailure, some "primary failed"⟩

/-- Successful primary MX response with two exchanges. -/
def twoPrimary : PrimaryResponse :=
  ⟨[MXAnswer.prefAnswer 300 "MX" "IN" "mail1.example.com." 10,
    MXAnswer.prefAnswer 300 "MX" "IN" "mail2.example.com." 20], ["prim-step"],
   Status.noError, none⟩

/-- MX module whose cache already holds an address for mail1.example.com. -/
def mxModuleCached : MXLookupModule :=
  ⟨true, false, 1000,
   ⟨1000, [("mail1.example.com", ⟨["203.0.113.7"], []⟩)]⟩, false⟩

/-- MX module with a capacity-1 cache, for the eviction counterexample. -/
def c9Module : MXLookupModule := ⟨true, false, 1, CacheHash.Init 1, false⟩

/-- MX module fixtures for the Init and CLIInit validation witnesses. -/
def mxNoFlags : MXLookupModule := ⟨false, false, 5, CacheHash.Init 0, false⟩

def mxBadSize : MXLookupModule := ⟨true, false, 0, CacheHash.Init 0, false⟩

/-- Module state CLIInit produces from mxNoFlags. -/
def mxNoFlagsInited : MXLookupModule := ⟨true, false, 5, CacheHash.Init 5, false⟩

/-! Helper lemmas. -/

theorem copyStrings_eq (l : List String) : copyStrings l = l := by
  induction l with
  | nil => rfl
  | cons x xs ih => simp [copyStrings, ih]

theorem getD_mem_of_lt (l : List String) (i : Nat) (h : i < l.length) :
    l.getD i "" ∈ l := by
  rw [List.getD_eq_getElem?_getD, List.getElem?_eq_getElem h]
  exact List.getElem_mem h

theorem store_read_alloc (s : Store) (l : List String) :
    (s.alloc l).1.read (s.alloc l).2 = l := by
  simp [Store.alloc, Store.read, List.getD_eq_getElem?_getD,
        List.getElem?_concat_length]

theorem store_read_write_ne (s : Store) (a b : GoSlice) (l : List String)
    (h : a.id ≠ b.id) : (s.write a l).read b = s.read b := by
  simp [Store.write, Store.read, List.getD_eq_getElem?_getD,
        List.getElem?_set_ne h]

/-! Claim theorems. -/

/-- C2: ExternalLookup with an empty dstServer dispatches non-iteratively
(iterative flag false) to a server drawn by the random oracle from the
external name-server list, and with a non-empty dstServer dispatches
non-iteratively to exactly that server. -/
theorem externalLookup_dispatch (r : Resolver) (s : Store) (rnd : Nat → Nat)
    (q : Question) (dstServer : String)
    (hrnd : ∀ n, 0 < n → rnd n < n) :
    (dstServer = "" → s.read r.externalNameServers ≠ [] →
      (r.ExternalLookup s rnd q dstServer).1 =
        some ⟨q, (s.read r.externalNameServers).getD
          (rnd (s.read r.externalNameServers).length) "", false⟩ ∧
      (s.read r.externalNameServers).getD
          (rnd (s.read r.externalNameServers).length) "" ∈
        s.read r.externalNameServers) ∧
    (dstServer ≠ "" →
      (r.ExternalLookup s rnd q dstServer).1 = some ⟨q, dstServer, false⟩) := by
  constructor
  · intro hdst hne
    subst hdst
    have hlen : (s.read r.externalNameServers).length ≠ 0 := by
      simpa [List.length_eq_zero] using hne
    have hpos : 0 < (s.read r.externalNameServers).length :=
      Nat.pos_of_ne_zero hlen
    refine ⟨?_, getD_mem_of_lt _ _ (hrnd _ hpos)⟩
    simp [Resolver.ExternalLookup, Resolver.randomExternalNameServer, hlen]
  · intro hdst
    simp [Resolver.ExternalLookup, hdst]

/-- Witness for C2 on concrete inputs. -/
theorem externalLookup_dispatch_witness :
    (sampleResolver.ExternalLookup sampleStore (fun _ => 0) sampleQuestion "").1 =
      some ⟨sampleQuestion, "1.2.3.4:53", false⟩ ∧
    (sampleResolver.ExternalLookup sampleStore (fun _ => 0) sampleQuestion
        "9.9.9.9:53").1 = some ⟨sampleQuestion, "9.9.9.9:53", false⟩ := by
  have h := externalLookup_dispatch sampleResolver sampleStore (fun _ => 0)
    sampleQuestion "" (fun _ hn => hn)
  have h2 := externalLookup_dispatch sampleResolver sampleStore (fun _ => 0)
    sampleQuestion "9.9.9.9:53" (fun _ hn => hn)
  refine ⟨?_, h2.2 (by decide)⟩
  have h1 := (h.1 rfl (by decide)).1
  rw [h1]
  decide

/-- C6: invoking a lookup on an empty relevant server list aborts fatally
(modelled as none: the process terminates, no Status and error value is
returned): ExternalLookup with an empty destination argument when the
external list is empty, and IterativeLookup when the root list is empty. -/
theorem emptyServerList_fatal (r : Resolver) (s : Store) (rnd : Nat → Nat)
    (q : Question) :
    (s.read r.externalNameServers = [] →
      (r.ExternalLookup s rnd q "").1 = none) ∧
    (r.rootNameServers = [] → (r.IterativeLookup s rnd q).1 = none) := by
  constructor
  · intro h
    simp [Resolver.ExternalLookup, Resolver.randomExternalNameServer, h]
  · intro h
    simp [Resolver.IterativeLookup, Resolver.randomRootNameServer, h]

/-- Witness for C6 on concrete inputs. -/
theorem emptyServerList_fatal_witness :
    (emptyResolver.ExternalLookup sampleStore (fun _ => 0) sampleQuestion "").1 =
      none ∧
    (emptyResolver.IterativeLookup sampleStore (fun _ => 0) sampleQuestion).1 =
      none := by
  have h := emptyServerList_fatal emptyResolver sampleStore (fun _ => 0)
    sampleQuestion
  exact ⟨h.1 (by decide), h.2 rfl⟩

/-- Inversion of a successful InitResolver run: the configuration was
valid, the local address is the dial-discovered one, the root list is the
RootServers constant, the external slice is freshly allocated (its id is at
least the pre-state store length), and it holds the configuration slice's
contents, or the OS-provided servers when those contents were empty. -/
theorem initResolver_ok_inv {config : ResolverConfig} {s : Store} {env : Env}
    {r : Resolver} {s1 : Store}
    (hok : InitResolver config s env = .ok (r, s1)) :
    config.isValid.1 = true ∧
    env.dialLocalIP = some r.localAddr ∧
    r.rootNameServers = RootServers ∧
    s.length ≤ r.externalNameServers.id ∧
    s1.read r.externalNameServers =
      (if s.read config.externalNameServers = [] then env.osNameServers
       else s.read config.externalNameServers) := by
  unfold InitResolver at hok
  by_cases hv : config.isValid.1
  · simp only [hv, Bool.not_true, Bool.false_eq_true, if_false, if_true] at hok
    cases hdial : env.dialLocalIP with
    | none => simp [hdial, String.length] at hok
    | some ip =>
      simp only [hdial, String.length, if_true] at hok
      by_cases hl : config.shouldRecycleSockets ∧ !env.listenUDPOk
      · simp [hl] at hok
      · simp only [hl, if_false, copyStrings_eq, store_read_alloc] at hok
        by_cases hemp : s.read config.externalNameServers = []
        · rw [if_pos (show (s.read config.externalNameServers).length = 0 by
            rw [hemp]; rfl)] at hok
          obtain ⟨hr, hs1⟩ := Prod.mk.inj (Except.ok.inj hok)
          subst hs1
          have hloc : r.localAddr = ip := by rw [← hr]
          have hroot : r.rootNameServers = RootServers := by rw [← hr]
          have hid : r.externalNameServers =
              ((s.alloc (s.read config.externalNameServers)).1.alloc
                env.osNameServers).2 := by rw [← hr]
          refine ⟨hv, by rw [hloc], hroot, ?_, ?_⟩
          · rw [hid]
            simp only [Store.alloc, List.length_append]
            omega
          · rw [hid, if_pos hemp]
            exact store_read_alloc _ _
        · have hc : ¬((s.read config.externalNameServers).length = 0) := by
            simpa [List.length_eq_zero] using hemp
          rw [if_neg hc] at hok
          obtain ⟨hr, hs1⟩ := Prod.mk.inj (Except.ok.inj hok)
          subst hs1
          have hloc : r.localAddr = ip := by rw [← hr]
          have hroot : r.rootNameServers = RootServers := by rw [← hr]
          have hid : r.externalNameServers =
              (s.alloc (s.read config.externalNameServers)).2 := by rw [← hr]
          refine ⟨hv, by rw [hloc], hroot, ?_, ?_⟩
          · rw [hid]
            simp [Store.alloc]
          · rw [hid, if_neg hemp]
            exact store_read_alloc _ _
  · simp [Bool.not_eq_true] at hv
    simp [hv] at hok

/-- Successful InitResolver run under a valid configuration, a successful
dial, and no failing ListenUDP. -/
theorem initResolver_ok_of_env {config : ResolverConfig} {s : Store}
    {env : Env} (hv : config.isValid.1 = true) (ip : String)
    (hdial : env.dialLocalIP = some ip)
    (hl : ¬(config.shouldRecycleSockets = true ∧ env.listenUDPOk = false)) :
    ∃ r s1, InitResolver config s env = .ok (r, s1) := by
  unfold InitResolver
  have hl2 : ¬(config.shouldRecycleSockets = true ∧ (!env.listenUDPOk) = true) := by
    simpa [Bool.not_eq_true'] using hl
  simp only [hv, Bool.not_true, Bool.false_eq_true, if_false, if_true, hdial,
    String.length, List.length_nil, eq_self_iff_true, hl2]
  exact ⟨_, _, rfl⟩

/-- C3: IterativeLookup on a constructed Resolver starts the descent at a
random member of the root name-server list, which InitResolver sets to the
fixed RootServers constant — never the external list — and the iterative
flag handed to the single-destination lookup is true. -/
theorem iterativeLookup_dispatch (config : ResolverConfig) (s : Store)
    (env : Env) (r : Resolver) (s1 : Store)
    (hok : InitResolver config s env = .ok (r, s1))
    (s2 : Store) (rnd : Nat → Nat) (q : Question)
    (hrnd : ∀ n, 0 < n → rnd n < n) :
    r.rootNameServers = RootServers ∧
    (r.IterativeLookup s2 rnd q).1 =
      some ⟨q, RootServers.getD (rnd RootServers.length) "", true⟩ ∧
    RootServers.getD (rnd RootServers.length) "" ∈ RootServers := by
  obtain ⟨-, -, hroot, -, -⟩ := initResolver_ok_inv hok
  have hlen : RootServers.length = 13 := rfl
  refine ⟨hroot, ?_, getD_mem_of_lt _ _ (hrnd _ (by decide))⟩
  simp [Resolver.IterativeLookup, Resolver.randomRootNameServer, hroot, hlen]

/-- Witness for C3 on concrete inputs. -/
theorem iterativeLookup_dispatch_witness :
    builtResolver.rootNameServers = RootServers ∧
    (builtResolver.IterativeLookup sampleStore (fun _ => 0) sampleQuestion).1 =
      some ⟨sampleQuestion, RootServers.getD 0 "", true⟩ ∧
    RootServers.getD 0 "" ∈ RootServers := by
  have h := iterativeLookup_dispatch sampleConfig sampleStore sampleEnv
    builtResolver builtStore rfl sampleStore (fun _ => 0)
    sampleQuestion (fun _ hn => hn)
  exact h

/-- C1 counterexample: a fully valid configuration on which InitResolver
still returns an error, because the throwaway dial used for local-address
discovery fails; so construction failure is not equivalent to configuration
invalidity. -/
theorem initResolver_error_on_valid_config :
    c1Config.isValid = (true, "") ∧
    InitResolver c1Config [] c1Env =
      Except.error "unable to find default IP address to open socket" := by
  constructor <;> rfl

/-- C1 (amended): a configuration is invalid exactly when the transport
mode is invalid, the IP version mode is invalid, or both a Cache and a
nonzero CacheSize are supplied; InitResolver rejects every invalid
configuration at construction, so invalidity never reaches a later lookup
call, and on a valid configuration it fails only for environmental socket
reasons (failing throwaway dial, or failing ListenUDP when socket recycling
is enabled). -/
theorem initResolver_error_characterization (config : ResolverConfig)
    (s : Store) (env : Env) :
    (config.isValid.1 = false ↔
      (config.transportMode.isValid.1 = false ∨
       config.ipVersionMode.IsValid.1 = false ∨
       (config.cache.isSome ∧ config.cacheSize ≠ 0))) ∧
    ((∃ e, InitResolver config s env = .error e) ↔
      (config.isValid.1 = false ∨ env.dialLocalIP = none ∨
       (config.shouldRecycleSockets = true ∧ env.listenUDPOk = false))) := by
  have hmsg : ∀ m : String, ∃ e, (Except.error m : Except String (Resolver × Store)) = .error e :=
    fun m => ⟨m, rfl⟩
  constructor
  · unfold ResolverConfig.isValid
    by_cases ht : config.transportMode.isValid.1
    · by_cases hi : config.ipVersionMode.IsValid.1
      · by_cases hc : config.cache.isSome ∧ config.cacheSize ≠ 0
        · simp [ht, hi, hc]
        · simp [ht, hi, hc]
      · simp only [Bool.not_eq_true] at hi
        simp [ht, hi]
    · simp only [Bool.not_eq_true] at ht
      simp [ht]
  · constructor
    · rintro ⟨e, he⟩
      by_cases hv : config.isValid.1
      · cases hdial : env.dialLocalIP with
        | none => exact Or.inr (Or.inl rfl)
        | some ip =>
          by_cases hl : config.shouldRecycleSockets = true ∧ env.listenUDPOk = false
          · exact Or.inr (Or.inr hl)
          · obtain ⟨r, s1, hok⟩ := initResolver_ok_of_env (s := s) hv ip hdial hl
            rw [hok] at he
            exact absurd he (by simp)
      · simp only [Bool.not_eq_true] at hv
        exact Or.inl hv
    · intro h
      by_cases hv : config.isValid.1
      · rcases h with hinv | hdial | hl
        · rw [hv] at hinv
          exact absurd hinv (by simp)
        · refine ⟨"unable to find default IP address to open socket", ?_⟩
          unfold InitResolver
          simp [hv, hdial, String.length]
        · cases hdial : env.dialLocalIP with
          | none =>
            refine ⟨"unable to find default IP address to open socket", ?_⟩
            unfold InitResolver
            simp [hv, hdial, String.length]
          | some ip =>
            refine ⟨"unable to create UDP connection", ?_⟩
            unfold InitResolver
            have hcond : config.shouldRecycleSockets = true ∧
                (!env.listenUDPOk) = true := ⟨hl.1, by simp [hl.2]⟩
            simp only [hv, Bool.not_true, Bool.false_eq_true, if_false,
              if_true, hdial, String.length, List.length_nil,
              eq_self_iff_true, hcond, and_self]
      · simp only [Bool.not_eq_true] at hv
        refine ⟨"invalid resolver config: " ++ config.isValid.2, ?_⟩
        unfold InitResolver
        simp [hv]

/-- Witness for the amended C1 on concrete inputs: the valid c1Config fails
to construct under the dial-failing environment. -/
theorem initResolver_error_characterization_witness :
    ∃ e, InitResolver c1Config [] c1Env = .error e := by
  have h := initResolver_error_characterization c1Config [] c1Env
  exact h.2.mpr (Or.inr (Or.inl rfl))

/-- C4 (code-bug evidence): a configuration carrying a caller-supplied
local address still yields a Resolver bound to the dial-discovered address;
the choose-a-random-supplied-address branch is dead because the source
tests r.localAddr before ever populating it from config.LocalAddrs. -/
theorem initResolver_ignores_configured_localAddrs :
    c4Config.localAddrs = ["10.9.8.7"] ∧
    (InitResolver c4Config sampleStore c4Env).toOption.map
        (fun p => p.1.localAddr) = some "192.0.2.55" ∧
    "192.0.2.55" ∉ c4Config.localAddrs := by
  refine ⟨rfl, rfl, by decide⟩

/-- C5: a constructed Resolver's external name-server slice is freshly
allocated and holds the configuration slice's contents at construction time
(or the OS-provided servers when those were empty); writing to the
configuration's slice afterwards leaves the Resolver's servers unchanged;
and ExternalLookup, IterativeLookup and Close write nothing: the store, and
with it both server lists, are untouched by every operation. -/
theorem serverLists_fixed_after_construction (config : ResolverConfig)
    (s : Store) (env : Env) (r : Resolver) (s1 : Store)
    (hok : InitResolver config s env = .ok (r, s1))
    (hid : config.externalNameServers.id < s.length) :
    s1.read r.externalNameServers =
      (if s.read config.externalNameServers = [] then env.osNameServers
       else s.read config.externalNameServers) ∧
    r.externalNameServers ≠ config.externalNameServers ∧
    (∀ l, (s1.write config.externalNameServers l).read r.externalNameServers =
      s1.read r.externalNameServers) ∧
    (∀ s2 rnd q dst, (r.ExternalLookup s2 rnd q dst).2 = s2) ∧
    (∀ s2 rnd q, (r.IterativeLookup s2 rnd q).2 = s2) ∧
    (∀ s2, r.Close s2 = (r, s2)) ∧
    r.rootNameServers = RootServers := by
  obtain ⟨-, -, hroot, hlen, hread⟩ := initResolver_ok_inv hok
  have hne : config.externalNameServers.id ≠ r.externalNameServers.id := by
    omega
  refine ⟨hread, ?_, ?_, ?_, ?_, fun s2 => rfl, hroot⟩
  · intro hcontra
    exact hne (congrArg GoSlice.id hcontra).symm
  · intro l
    exact store_read_write_ne s1 _ _ l hne
  · intro s2 rnd q dst
    unfold Resolver.ExternalLookup
    by_cases h : dst = ""
    · simp only [h, if_true]
      cases r.randomExternalNameServer s2 rnd <;> rfl
    · rw [if_neg h]
  · intro s2 rnd q
    unfold Resolver.IterativeLookup
    cases r.randomRootNameServer rnd <;> rfl

/-- Witness for C5 on concrete inputs: the constructed Resolver reads the
configured servers, and a post-construction write to the configuration's
slice does not change what the Resolver reads. -/
theorem serverLists_fixed_witness :
    builtStore.read builtResolver.externalNameServers =
      sampleStore.read sampleConfig.externalNameServers ∧
    (builtStore.write sampleConfig.externalNameServers ["9.9.9.9:53"]).read
        builtResolver.externalNameServers =
      builtStore.read builtResolver.externalNameServers := by
  have h := serverLists_fixed_after_construction sampleConfig sampleStore
    sampleEnv builtResolver builtStore rfl (by decide)
  refine ⟨?_, h.2.2.1 ["9.9.9.9:53"]⟩
  rw [h.1, if_neg (by decide)]

/-- Lookup after Upsert finds the fresh binding whenever capacity is at
least one. -/
theorem cacheHash_get_upsert (ch : CacheHash) (name : String)
    (v : CachedAddresses) (h : 1 ≤ ch.capacity) :
    (ch.Upsert name v).Get name = some v := by
  unfold CacheHash.Upsert CacheHash.Get
  have h1 : ch.capacity.toNat = ch.capacity.toNat - 1 + 1 := by omega
  rw [h1, List.take_succ_cons]
  simp [List.lookup]

/-- Record names produced by the Lookup answer loop do not depend on the
cache state. -/
theorem processAnswers_names (targeted : String → TargetedResponse)
    (answers : List MXAnswer) : ∀ m : MXLookupModule,
    (processAnswers targeted m answers).records.map (fun rcd => rcd.Name) =
      answers.filterMap (fun a => match a with
        | MXAnswer.prefAnswer _ _ _ ans _ => some (trimSuffixDot ans)
        | MXAnswer.otherAnswer => none) := by
  induction answers with
  | nil => intro m; rfl
  | cons a rest ih =>
    intro m
    cases a with
    | otherAnswer => simpa [processAnswers] using ih m
    | prefAnswer ttl typ cls ans p => simp [processAnswers, ih]

/-- C7: a non-success or nil-result secondary lookup yields empty address
sets; a failing primary query is returned as a nil result with that very
Status and error; a successful primary query always yields an overall
NoError result containing one record per PrefAnswer exchange. -/
theorem mxLookup_secondary_failures_soft (m : MXLookupModule)
    (targeted : String → TargetedResponse) (name : String)
    (primary : PrimaryResponse) :
    (m.cacheHash.Get name = none →
      ((targeted name).status ≠ Status.noError ∨ (targeted name).result = none) →
      (m.lookupIPs targeted name).addrs = ⟨[], []⟩) ∧
    (primary.status ≠ Status.noError ∨ primary.err ≠ none →
      m.Lookup primary targeted =
        ⟨none, primary.trace, primary.status, primary.err, m, []⟩) ∧
    (primary.status = Status.noError → primary.err = none →
      (m.Lookup primary targeted).status = Status.noError ∧
      (m.Lookup primary targeted).err = none ∧
      (m.Lookup primary targeted).result.map (fun res =>
          res.Servers.map (fun rcd => rcd.Name)) =
        some (primary.answers.filterMap (fun a => match a with
          | MXAnswer.prefAnswer _ _ _ ans _ => some (trimSuffixDot ans)
          | MXAnswer.otherAnswer => none))) := by
  refine ⟨?_, ?_, ?_⟩
  · intro hmiss hfail
    unfold MXLookupModule.lookupIPs
    rw [hmiss]
    rcases hfail with hst | hres
    · simp [hst]
    · by_cases hst : (targeted name).status = Status.noError
      · simp [hst, hres]
      · simp [hst]
  · intro h
    unfold MXLookupModule.Lookup
    rw [if_pos h]
  · intro hst herr
    unfold MXLookupModule.Lookup
    rw [if_neg (by simp [hst, herr])]
    exact ⟨rfl, rfl, by simp [processAnswers_names]⟩

/-- Witness for C7 on concrete inputs. -/
theorem mxLookup_secondary_failures_soft_witness :
    (mxModule.lookupIPs failTargeted "mail.example.com").addrs = ⟨[], []⟩ ∧
    mxModule.Lookup badPrimary failTargeted =
      ⟨none, ["prim-step"], Status.serverFailure, some "primary failed",
       mxModule, []⟩ ∧
    (mxModule.Lookup okPrimary failTargeted).result.map (fun res =>
        res.Servers.map (fun rcd => rcd.Name)) = some ["mail.example.com"] := by
  have h := mxLookup_secondary_failures_soft mxModule failTargeted
    "mail.example.com" badPrimary
  have h2 := mxLookup_secondary_failures_soft mxModule failTargeted
    "mail.example.com" okPrimary
  refine ⟨h.1 rfl (Or.inl (by decide)), h.2.1 (Or.inl (by decide)), ?_⟩
  rw [(h2.2.2 rfl rfl).2.2]
  decide

/-- C8: a cached exchange name short-circuits (cached addresses, empty
trace, no Resolver call); an uncached name issues exactly one targeted call
whose trace becomes the secondary trace; and in a two-exchange Lookup with
the first cached and the second not, the merged trace is the primary trace
followed by the second exchange's secondary trace, and exactly that one
targeted call is made. -/
theorem mxLookup_cache_shortCircuit_and_order (m : MXLookupModule)
    (targeted : String → TargetedResponse) (name : String)
    (res : CachedAddresses) :
    (m.cacheHash.Get name = some res →
      m.lookupIPs targeted name = ⟨res, [], m, []⟩) ∧
    (m.cacheHash.Get name = none →
      (m.lookupIPs targeted name).calls = [name] ∧
      (m.lookupIPs targeted name).trace = (targeted name).trace) ∧
    (∀ primary t1 y1 c1 a1 p1 t2 y2 c2 a2 p2,
      primary.status = Status.noError → primary.err = none →
      primary.answers = [MXAnswer.prefAnswer t1 y1 c1 a1 p1,
        MXAnswer.prefAnswer t2 y2 c2 a2 p2] →
      m.cacheHash.Get (trimSuffixDot a1) = some res →
      m.cacheHash.Get (trimSuffixDot a2) = none →
      (m.Lookup primary targeted).trace =
        primary.trace ++ (targeted (trimSuffixDot a2)).trace ∧
      (m.Lookup primary targeted).calls = [trimSuffixDot a2]) := by
  refine ⟨?_, ?_, ?_⟩
  · intro hhit
    unfold MXLookupModule.lookupIPs
    rw [hhit]
  · intro hmiss
    unfold MXLookupModule.lookupIPs
    rw [hmiss]
    exact ⟨rfl, rfl⟩
  · intro primary t1 y1 c1 a1 p1 t2 y2 c2 a2 p2 hst herr hans hhit hmiss
    unfold MXLookupModule.Lookup
    rw [if_neg (by simp [hst, herr]), hans]
    constructor <;>
      simp [processAnswers, MXLookupModule.lookupIPs, hhit, hmiss]

/-- Witness for C8 on concrete inputs. -/
theorem mxLookup_cache_shortCircuit_witness :
    (mxModuleCached.Lookup twoPrimary okTargeted).trace =
      ["prim-step", "sec-step-ok"] ∧
    (mxModuleCached.Lookup twoPrimary okTargeted).calls =
      ["mail2.example.com"] := by
  have h := (mxLookup_cache_shortCircuit_and_order mxModuleCached okTargeted
    "mail1.example.com" ⟨["203.0.113.7"], []⟩).2.2 twoPrimary
    300 "MX" "IN" "mail1.example.com." 10 300 "MX" "IN" "mail2.example.com." 20
    rfl rfl rfl (by decide) (by decide)
  refine ⟨?_, ?_⟩
  · rw [h.1]
    decide
  · rw [h.2]
    decide

/-- C9 counterexample: with the bounded cache at capacity 1, the negative
entry for the first name is evicted by the next insertion, and a later
lookupIPs for the first name re-attempts the targeted lookup and returns
fresh non-empty addresses — the negative entry is not permanent. -/
theorem mxNegativeCache_not_permanent :
    (((c9Module.lookupIPs failTargeted "mx-a.example").mod.lookupIPs
        failTargeted "mx-b.example").mod.lookupIPs okTargeted
        "mx-a.example").calls = ["mx-a.example"] ∧
    (((c9Module.lookupIPs failTargeted "mx-a.example").mod.lookupIPs
        failTargeted "mx-b.example").mod.lookupIPs okTargeted
        "mx-a.example").addrs = ⟨["198.51.100.5"], []⟩ := by
  decide

/-- C9 (amended): an uncached exchange whose targeted lookup fails is
cached as empty address sets with no TTL or expiry, and while the negative
entry remains — it can only leave by capacity-based eviction — every
subsequent lookupIPs for that name hits the cache: empty addresses, empty
trace, no Resolver call, module state unchanged, whatever the resolver
would now answer. -/
theorem mxNegativeCache_until_eviction (m : MXLookupModule)
    (targeted : String → TargetedResponse) (name : String)
    (hcap : 1 ≤ m.cacheHash.capacity)
    (hmiss : m.cacheHash.Get name = none)
    (hfail : (targeted name).status ≠ Status.noError ∨
      (targeted name).result = none) :
    (m.lookupIPs targeted name).addrs = ⟨[], []⟩ ∧
    (m.lookupIPs targeted name).mod.cacheHash.Get name = some ⟨[], []⟩ ∧
    (∀ targeted2, (m.lookupIPs targeted name).mod.lookupIPs targeted2 name =
      ⟨⟨[], []⟩, [], (m.lookupIPs targeted name).mod, []⟩) := by
  have key : m.lookupIPs targeted name =
      ⟨⟨[], []⟩, (targeted name).trace,
       { m with cacheHash := m.cacheHash.Upsert name ⟨[], []⟩ }, [name]⟩ := by
    unfold MXLookupModule.lookupIPs
    rw [hmiss]
    rcases hfail with hst | hres
    · simp [hst]
    · by_cases hst : (targeted name).status = Status.noError
      · simp [hst, hres]
      · simp [hst]
  rw [key]
  have hget := cacheHash_get_upsert m.cacheHash name ⟨[], []⟩ hcap
  refine ⟨rfl, hget, fun targeted2 => ?_⟩
  simp [MXLookupModule.lookupIPs, hget]

/-- Witness for the amended C9 on concrete inputs. -/
theorem mxNegativeCache_until_eviction_witness :
    (mxModule.lookupIPs failTargeted "mx1.example.com").addrs = ⟨[], []⟩ ∧
    ((mxModule.lookupIPs failTargeted "mx1.example.com").mod.lookupIPs
        okTargeted "mx1.example.com").calls = [] := by
  have h := mxNegativeCache_until_eviction mxModule failTargeted
    "mx1.example.com" (by decide) rfl (Or.inl (by decide))
  refine ⟨h.1, ?_⟩
  rw [h.2.2 okTargeted]

/-- C10: Init aborts fatally unless at least one lookup flag is set and
MXCacheSize is positive; CLIInit presets IPv4Lookup when neither flag is
set, so through CLIInit only the cache-size fatal remains reachable, and a
module that CLIInit successfully initializes from a no-flag state performs
IPv4 lookups. -/
theorem mxInit_validation (m : MXLookupModule) (basicErr : Option String) :
    (m.Init = none ↔
      ((m.IPv4Lookup = false ∧ m.IPv6Lookup = false) ∨ m.MXCacheSize ≤ 0)) ∧
    (m.CLIInit basicErr = none ↔ m.MXCacheSize ≤ 0) ∧
    (∀ m2, m.CLIInit basicErr = some (Except.ok m2) →
      m.IPv4Lookup = false → m.IPv6Lookup = false → m2.IPv4Lookup = true) := by
  cases hb : basicErr <;> cases h4 : m.IPv4Lookup <;>
    cases h6 : m.IPv6Lookup <;> by_cases hsz : m.MXCacheSize ≤ 0 <;>
    simp [MXLookupModule.Init, MXLookupModule.CLIInit, h4, h6, hsz]

/-- Witness for C10 on concrete inputs. -/
theorem mxInit_validation_witness :
    mxNoFlags.Init = none ∧
    mxBadSize.CLIInit none = none ∧
    mxNoFlagsInited.IPv4Lookup = true := by
  refine ⟨?_, ?_, ?_⟩
  · exact (mxInit_validation mxNoFlags none).1.mpr (Or.inl ⟨rfl, rfl⟩)
  · exact (mxInit_validation mxBadSize none).2.1.mpr (by decide)
  · exact (mxInit_validation mxNoFlags none).2.2 mxNoFlagsInited rfl rfl rfl

end ZDNS
